import Mathlib

/-!
Verification development for the Gestion-absence repository
(src/app.py and src/database_connector.py).

The program is a pandas/streamlit gradebook.  This file gives a shallow
embedding of its data model and operations:

* a pandas `DataFrame` is a fixed, ordered list of column names together
  with the rows, each row an ordered list of cell values;
* a cell value is a boolean, a number, a string, or null (pandas NaN /
  JSON null); numbers are modelled as exact rationals, abstracting both
  int64 and float64 columns;
* operations that can raise a Python exception (`~` on a non-boolean,
  column selection with a missing label) return `Except Err`;
* the streamlit session state (the simulated persistence slot and the
  active table) is passed explicitly.
-/

namespace GestionAbsence

/-- A cell value of a table: boolean, number (exact rational, abstracting
int64/float64), string, or null (pandas NaN / JSON null). -/
inductive Val where
  | vBool : Bool → Val
  | vNum : ℚ → Val
  | vStr : String → Val
  | vNull : Val
deriving DecidableEq, Repr

/-- A pandas DataFrame: ordered column names and rows of cell values.
Column identity is name based; classification of a column (attendance,
grade, identifier) is by substring match on its name, as in the source. -/
structure DataFrame where
  columns : List String
  rows : List (List Val)
deriving DecidableEq, Repr

/-- Errors a pipeline step can raise (Python exceptions). -/
inductive Err where
  | typeError : Err
  | keyError : String → Err
deriving DecidableEq, Repr

/-- Whether the character list starts with the given needle. -/
def charsStartWith : List Char → List Char → Bool
  | [], _ => true
  | _ :: _, [] => false
  | a :: as, b :: bs => a == b && charsStartWith as bs

/-- Whether the needle occurs as a contiguous run of the character list. -/
def charsContain (needle : List Char) : List Char → Bool
  | [] => charsStartWith needle []
  | b :: bs => charsStartWith needle (b :: bs) || charsContain needle bs

/-- Python substring test `needle in hay` on strings. -/
def strContains (hay needle : String) : Bool :=
  charsContain needle.toList hay.toList

/-- Attendance columns: names containing "Présence"
(src/app.py line 82, src/database_connector.py line 28). -/
def presenceCols (df : DataFrame) : List String :=
  df.columns.filter (fun c => strContains c "Présence")

/-- Grade columns: names containing "Note" (src/app.py line 101). -/
def noteCols (df : DataFrame) : List String :=
  df.columns.filter (fun c => strContains c "Note")

/-- Cell of a row under a column name; name-based lookup via the position
of the column label, null when the label or the cell is missing. -/
def cellAt (cols : List String) (r : List Val) (c : String) : Val :=
  r.getD (cols.indexOf c) Val.vNull

/-- Assignment `df[name] = vals` (one value per row): replaces the column
if the label exists, otherwise appends it as the last column. -/
def setCol (df : DataFrame) (name : String) (vals : List Val) : DataFrame :=
  if df.columns.contains name then
    ⟨df.columns, (df.rows.zip vals).map (fun p => p.1.set (df.columns.indexOf name) p.2)⟩
  else
    ⟨df.columns ++ [name], (df.rows.zip vals).map (fun p => p.1 ++ [p.2])⟩

/-- Column selection `df[[names]]`: the named columns in the given order,
all rows kept; raises KeyError when a label is missing. -/
def selectCols (df : DataFrame) (names : List String) : Except Err DataFrame :=
  match names.find? (fun c => !(df.columns.contains c)) with
  | some c => Except.error (Err.keyError c)
  | none => Except.ok ⟨names, df.rows.map (fun r => names.map (fun c => cellAt df.columns r c))⟩

/-- Sequence a fallible function over a list, stopping at the first error
(models an elementwise pandas operation that can raise). -/
def seqMapE {α β : Type} (f : α → Except Err β) : List α → Except Err (List β)
  | [] => Except.ok []
  | a :: as =>
    match f a, seqMapE f as with
    | Except.error e, _ => Except.error e
    | Except.ok _, Except.error e => Except.error e
    | Except.ok b, Except.ok bs => Except.ok (b :: bs)

/-- The pandas unary `~` on a cell: negation on booleans, bitwise
complement on integers, TypeError on floats with a fractional part, on
NaN (null) and on strings. -/
def pandasInvert : Val → Except Err Val
  | Val.vBool b => Except.ok (Val.vBool (!b))
  | Val.vNum q => if q.den = 1 then Except.ok (Val.vNum (-q - 1)) else Except.error Err.typeError
  | Val.vStr _ => Except.error Err.typeError
  | Val.vNull => Except.error Err.typeError

/-- Numeric reading of a cell for `.sum(axis=1)`: booleans count 1/0. -/
def valAsNum : Val → ℚ
  | Val.vBool b => if b then 1 else 0
  | Val.vNum q => q
  | _ => 0

/-- Row total of `(~df[absence_cols]).sum(axis=1)` (src/app.py line 89):
invert every attendance cell of the row, then sum. -/
def rowAbsenceTotalE (df : DataFrame) (r : List Val) : Except Err ℚ :=
  (seqMapE (fun c => pandasInvert (cellAt df.columns r c)) (presenceCols df)).map
    (fun vs => (vs.map valAsNum).sum)

/-- The whole `Total Absences` column of src/app.py line 89. -/
def absenceTotalsE (df : DataFrame) : Except Err (List Val) :=
  seqMapE (fun r => (rowAbsenceTotalE df r).map Val.vNum) df.rows

/-- Sort key of a cell for `sort_values`: numbers as themselves, booleans
as 1/0, anything else (null = NaN, strings are never keys here) unkeyed. -/
def sortKeyQ : Val → Option ℚ
  | Val.vNum q => some q
  | Val.vBool b => some (if b then 1 else 0)
  | _ => none

/-- Row order for `sort_values(by=c, ascending=False)`: descending on the
key, unkeyed (NaN) rows last, ties keeping input order. -/
def rowLeDesc (cols : List String) (c : String) (r1 r2 : List Val) : Bool :=
  match sortKeyQ (cellAt cols r1 c), sortKeyQ (cellAt cols r2 c) with
  | some q1, some q2 => decide (q2 ≤ q1)
  | some _, none => true
  | none, some _ => false
  | none, none => true

/-- Insert an element in front of the first list element it may precede. -/
def insertOrd {α : Type} (le : α → α → Bool) (x : α) : List α → List α
  | [] => [x]
  | y :: ys => if le x y then x :: y :: ys else y :: insertOrd le x ys

/-- Insertion sort; keeps input order on ties of `le`. -/
def insertionSortBy {α : Type} (le : α → α → Bool) : List α → List α
  | [] => []
  | x :: xs => insertOrd le x (insertionSortBy le xs)

/-- Model of `df.sort_values(by=c, ascending=False)` (src/app.py lines
93/95/112/114): rows in descending key order, NaN keys last.  The numpy
default sort kind leaves the tie order implementation defined; this model
keeps the input order on ties. -/
def sort_values_desc (df : DataFrame) (c : String) : DataFrame :=
  ⟨df.columns, insertionSortBy (rowLeDesc df.columns c) df.rows⟩

/-- Shared tail of both report generators (src/app.py lines 91-97 and
110-116): select `Nom`, `S1` when present, and the computed column, then
sort by the computed column descending. -/
def finishReport (df2 : DataFrame) (newCol : String) : Except Err (Option DataFrame) × DataFrame :=
  let sel := if df2.columns.contains "S1" then ["Nom", "S1", newCol] else ["Nom", newCol]
  match selectCols df2 sel with
  | Except.error e => (Except.error e, df2)
  | Except.ok rep => (Except.ok (some (sort_values_desc rep newCol)), df2)

/-- src/app.py lines 80-97, `generate_absence_report(df)`.  The second
component is the final state of the (mutated) argument; the first is the
returned report, `none` when no attendance column exists, or the raised
exception. -/
def generate_absence_report (df : DataFrame) : Except Err (Option DataFrame) × DataFrame :=
  if (presenceCols df).isEmpty then (Except.ok none, df)
  else
    match absenceTotalsE df with
    | Except.error e => (Except.error e, df)
    | Except.ok totals => finishReport (setCol df "Total Absences" totals) "Total Absences"

/-- Round an integer-scaled rational half to even (the numpy default). -/
def roundHalfEven (q : ℚ) : ℤ :=
  let f := Int.ediv q.num (q.den : ℤ)
  let r := q - (f : ℚ)
  if r < 1/2 then f
  else if 1/2 < r then f + 1
  else if f % 2 = 0 then f else f + 1

/-- Model of pandas `.round(2)`: scale by 100, round half to even,
scale back.  Floats are modelled as exact rationals, so the decimal
rounding is exact rather than on the binary float. -/
def round2 (q : ℚ) : ℚ := (roundHalfEven (q * 100) : ℚ) / 100

/-- Numeric readings of the grade cells of a row for
`df[note_cols].mean(axis=1)`: numbers as themselves, booleans as 1/0,
nulls skipped (skipna), strings a TypeError. -/
def gradeValsE : List Val → Except Err (List ℚ)
  | [] => Except.ok []
  | v :: vs =>
    match gradeValsE vs with
    | Except.error e => Except.error e
    | Except.ok rest =>
      match v with
      | Val.vNum q => Except.ok (q :: rest)
      | Val.vBool b => Except.ok ((if b then (1:ℚ) else 0) :: rest)
      | Val.vNull => Except.ok rest
      | Val.vStr _ => Except.error Err.typeError

/-- One row of `df[note_cols].mean(axis=1).round(2)` (src/app.py line
108): mean of the non-null grade cells rounded to 2 decimals, NaN (null)
when the row has no non-null grade cell. -/
def rowNoteMean (df : DataFrame) (r : List Val) : Except Err Val :=
  (gradeValsE ((noteCols df).map (fun c => cellAt df.columns r c))).map
    (fun nums => if nums.isEmpty then Val.vNull
                 else Val.vNum (round2 (nums.sum / (nums.length : ℚ))))

/-- The whole `Moyenne Notes` column of src/app.py line 108. -/
def noteMeansE (df : DataFrame) : Except Err (List Val) :=
  seqMapE (rowNoteMean df) df.rows

/-- src/app.py lines 99-116, `generate_notes_report(df)`.  Same shape as
`generate_absence_report`. -/
def generate_notes_report (df : DataFrame) : Except Err (Option DataFrame) × DataFrame :=
  if (noteCols df).isEmpty then (Except.ok none, df)
  else
    match noteMeansE df with
    | Except.error e => (Except.error e, df)
    | Except.ok means => finishReport (setCol df "Moyenne Notes" means) "Moyenne Notes"

/-! ## Persistence layer

`to_json(orient='split', index=False)` writes the column names and the
row values (no index); `read_json(orient='split')` reads them back.  The
payload is modelled as the columns plus the rows of JSON values; numbers
are exact rationals (the decimal precision of the float encoding is
abstracted away). -/

/-- A JSON scalar as written by `to_json`. -/
inductive JVal where
  | jb : Bool → JVal
  | jn : ℚ → JVal
  | js : String → JVal
  | jnull : JVal
deriving DecidableEq, Repr

/-- The `orient='split', index=False` payload: columns and row data. -/
structure SplitPayload where
  columns : List String
  data : List (List JVal)
deriving DecidableEq, Repr

/-- Serialization of one cell by `to_json`. -/
def valToJson : Val → JVal
  | Val.vBool b => JVal.jb b
  | Val.vNum q => JVal.jn q
  | Val.vStr s => JVal.js s
  | Val.vNull => JVal.jnull

/-- Deserialization of one cell by `read_json` before dtype inference
(null becomes NaN). -/
def jsonToVal : JVal → Val
  | JVal.jb b => Val.vBool b
  | JVal.jn q => Val.vNum q
  | JVal.js s => Val.vStr s
  | JVal.jnull => Val.vNull

/-- `df.to_json(orient='split', index=False)`. -/
def to_json_split (df : DataFrame) : SplitPayload :=
  ⟨df.columns, df.rows.map (List.map valToJson)⟩

/-! ### read_json dtype inference

`pd.read_json` infers dtypes by default.  At the value level of this
model the visible part is the object-column conversion: a column that is
stored as object dtype (it holds a string, or booleans mixed with other
values) is cast with `astype('float64')`, which parses numeric strings
with Python's float syntax, turns booleans into 1.0/0.0 and nulls into
NaN, and succeeds only when every cell is convertible.  Conversions that
are invisible at this level (float64/int64 moves between equal numeric
values) are not represented, since numbers are exact rationals here.
The datetime conversion of date-named columns and the conversion of the
column-label axis are not representable in `Val`; the round-trip theorem
below carries explicit hypotheses that keep both out of its scope. -/

/-- Lower-case a string (ASCII case folding of `str.lower()` as used by
the column-name heuristics). -/
def strToLower (s : String) : String := String.map Char.toLower s

/-- Whether the character list ends with the given needle. -/
def charsEndWith (pat l : List Char) : Bool :=
  charsStartWith pat.reverse l.reverse

/-- pandas' `keep_default_dates` column-name heuristic: names ending in
"_at"/"_time", equal to "modified"/"date"/"datetime", or starting with
"timestamp" (case-insensitively) get a datetime conversion attempt. -/
def dateLikeName (c : String) : Bool :=
  let l := (strToLower c).toList
  charsEndWith "_at".toList l || charsEndWith "_time".toList l
    || l == "modified".toList || l == "date".toList || l == "datetime".toList
    || charsStartWith "timestamp".toList l

/-- Split a character list on one separator character. -/
def splitOnChar (ch : Char) : List Char → List (List Char)
  | [] => [[]]
  | c :: cs =>
    match splitOnChar ch cs with
    | [] => if c == ch then [[], []] else [[c]]
    | r :: rs => if c == ch then [] :: r :: rs else (c :: r) :: rs

/-- Strip one leading sign character; report whether it was a minus. -/
def splitSign : List Char → Bool × List Char
  | '-' :: l => (true, l)
  | '+' :: l => (false, l)
  | l => (false, l)

/-- Digit run with Python's underscore separators (accepted anywhere in
the run, a superset of Python's between-digits rule). -/
def digitish (l : List Char) : Bool := l.all (fun ch => ch.isDigit || ch == '_')

/-- Whether the run holds at least one digit. -/
def hasDigitChar (l : List Char) : Bool := l.any Char.isDigit

/-- Value of a digit run, skipping underscores. -/
def digitsVal (l : List Char) : Nat :=
  l.foldl (fun a ch => if ch.isDigit then a * 10 + (ch.toNat - 48) else a) 0

/-- Number of proper digits in a run. -/
def digitCount (l : List Char) : Nat := (l.filter Char.isDigit).length

/-- Syntax of a float mantissa: digits with at most one dot and at least
one digit overall. -/
def mantissaOk (l : List Char) : Bool :=
  match splitOnChar '.' l with
  | [a] => digitish a && hasDigitChar a
  | [a, b] => digitish a && digitish b && (hasDigitChar a || hasDigitChar b)
  | _ => false

/-- Value of a float mantissa. -/
def mantissaVal (l : List Char) : ℚ :=
  match splitOnChar '.' l with
  | [a] => (digitsVal a : ℚ)
  | [a, b] => (digitsVal a : ℚ) + (digitsVal b : ℚ) / ((10 : ℚ) ^ digitCount b)
  | _ => 0

/-- Syntax of a float exponent: optional sign then a digit run. -/
def expOk (l : List Char) : Bool :=
  digitish (splitSign l).2 && hasDigitChar (splitSign l).2

/-- Value of a float exponent. -/
def expVal (l : List Char) : ℤ :=
  if (splitSign l).1 then -(digitsVal (splitSign l).2 : ℤ) else (digitsVal (splitSign l).2 : ℤ)

/-- Parse the sign-stripped, lower-cased body of a float literal. -/
def floatCore (l : List Char) : Option ℚ :=
  match splitOnChar 'e' l with
  | [m] => if mantissaOk m then some (mantissaVal m) else none
  | [m, ex] =>
    if mantissaOk m && expOk ex then some (mantissaVal m * (10 : ℚ) ^ expVal ex) else none
  | _ => none

/-- Python's `float(str)` as applied by numpy's object-to-float cast
(ASCII syntax): optional whitespace and sign, then a decimal literal, or
"nan"/"inf"/"infinity".  NaN is the null of this model; infinities also
collapse to null here (no claim depends on a converted infinite value,
because the round-trip theorem excludes every converting column). -/
def pyFloatVal (s : String) : Option Val :=
  let t := ((s.toList.dropWhile Char.isWhitespace).reverse.dropWhile Char.isWhitespace).reverse
  let sg := splitSign t
  let low := sg.2.map Char.toLower
  if low == "nan".toList || low == "inf".toList || low == "infinity".toList then some Val.vNull
  else
    match floatCore low with
    | some q => some (Val.vNum (if sg.1 then -q else q))
    | none => none

/-- Whether the string survives Python's float parse. -/
def pyFloatParseable (s : String) : Bool := (pyFloatVal s).isSome

/-- Whether the raw column is constructed with object dtype: it holds a
string, or booleans mixed with non-boolean values.  Pure boolean columns
get bool dtype and pure number/null columns get a numeric dtype, so
neither sees the object conversion. -/
def isObjectColumn (col : List JVal) : Bool :=
  col.any (fun v => match v with | JVal.js _ => true | _ => false)
    || (col.any (fun v => match v with | JVal.jb _ => true | _ => false)
        && !(col.all (fun v => match v with | JVal.jb _ => true | _ => false)))

/-- Whether `astype('float64')` accepts the cell: numbers, booleans and
nulls always, strings when float-parseable. -/
def cellFloatConvertible : JVal → Bool
  | JVal.js s => pyFloatParseable s
  | _ => true

/-- The cell after `astype('float64')`: booleans become 1/0, nulls NaN,
strings their parsed value. -/
def cellToFloat : JVal → Val
  | JVal.jn q => Val.vNum q
  | JVal.jb b => Val.vNum (if b then 1 else 0)
  | JVal.jnull => Val.vNull
  | JVal.js s => (pyFloatVal s).getD Val.vNull

/-- Whether the inference converts the column: object dtype and every
cell convertible. -/
def shouldConvertColumn (col : List JVal) : Bool :=
  isObjectColumn col && col.all cellFloatConvertible

/-- The cells stored at one column position, read off the rows. -/
def columnCells (data : List (List JVal)) (j : Nat) : List JVal :=
  data.filterMap (fun r => r[j]?)

/-- One conversion decision per column of the payload. -/
def convertFlags (p : SplitPayload) : List Bool :=
  (List.range p.columns.length).map (fun j => shouldConvertColumn (columnCells p.data j))

/-- Apply the per-column conversion decisions to one row.  Cells beyond
the column list keep the plain reading. -/
def convertCells : List Bool → List JVal → List Val
  | [], vs => vs.map jsonToVal
  | _ :: _, [] => []
  | b :: bs, v :: vs =>
    (if b then cellToFloat v else jsonToVal v) :: convertCells bs vs

/-- `pd.read_json(payload, orient='split')` with its default dtype
inference: each column that is object dtype and fully float-convertible
is cast to numbers; every other column keeps its values.  The datetime
attempt on date-named columns and the conversion of the column-label
axis are outside the value model (see the section comment); the
round-trip theorem excludes them by hypothesis. -/
def read_json_split (p : SplitPayload) : DataFrame :=
  ⟨p.columns, p.data.map (convertCells (convertFlags p))⟩

/-- `astype(bool)` on one cell: identity on booleans, zero test on
numbers, Python truthiness on strings (any nonempty string, including
"false", is true), and true on null (NaN is truthy). -/
def coerceBoolVal : Val → Val
  | Val.vBool b => Val.vBool b
  | Val.vNum q => Val.vBool (decide (q ≠ 0))
  | Val.vStr s => Val.vBool (decide (s ≠ ""))
  | Val.vNull => Val.vBool true

/-- Apply the attendance coercion positionally: the cell under a column
whose name contains "Présence" goes through `astype(bool)`. -/
def coerceCells : List String → List Val → List Val
  | [], vs => vs
  | _ :: _, [] => []
  | c :: cs, v :: vs =>
    (if strContains c "Présence" then coerceBoolVal v else v) :: coerceCells cs vs

/-- The coercion loop of src/database_connector.py lines 27-29 and
src/app.py lines 33-35: every "Présence" column is cast to boolean. -/
def coercePresence (df : DataFrame) : DataFrame :=
  ⟨df.columns, df.rows.map (coerceCells df.columns)⟩

/-- The empty DataFrame `pd.DataFrame()`. -/
def emptyFrame : DataFrame := ⟨[], []⟩

/-- src/database_connector.py lines 8-14, `init_db()`: the simulated
connection setup performs no action on the stored state. -/
def init_db (s : Option SplitPayload) : Option SplitPayload := s

/-- src/database_connector.py lines 16-32, `fetch_data()`: deserialize
the slot and coerce attendance columns, or return an empty frame when
the slot is absent. -/
def fetch_data (s : Option SplitPayload) : DataFrame :=
  match s with
  | some p => coercePresence (read_json_split p)
  | none => emptyFrame

/-- src/database_connector.py lines 34-40, `write_data(df)`: overwrite
the slot with the serialized frame. -/
def write_data (df : DataFrame) (_s : Option SplitPayload) : Option SplitPayload :=
  some (to_json_split df)

/-! ## Application wiring (src/app.py) -/

/-- src/app.py lines 14-22, `load_initial_data(df_csv)`: create the slot
from the seed frame when it is absent, otherwise leave it unchanged. -/
def load_initial_data (df_csv : DataFrame) (slot : Option SplitPayload) : Option SplitPayload :=
  match slot with
  | none => some (to_json_split df_csv)
  | some p => some p

/-- src/app.py lines 25-38, `load_persisted_data()`: same behaviour as
`fetch_data`, against the app's own slot. -/
def load_persisted_data (slot : Option SplitPayload) : DataFrame :=
  match slot with
  | some p => coercePresence (read_json_split p)
  | none => emptyFrame

/-- src/app.py lines 41-45, `save_persisted_data(df)`. -/
def save_persisted_data (df : DataFrame) (_slot : Option SplitPayload) : Option SplitPayload :=
  some (to_json_split df)

/-- pandas `df.empty`: an axis of length zero. -/
def DataFrame.isEmptyFrame (df : DataFrame) : Bool :=
  df.rows.isEmpty || df.columns.isEmpty

/-- The session state of the app: the simulated persistence slot
(`st.session_state["persisted_data"]`) and the active table
(`st.session_state.data_df`). -/
structure AppState where
  persisted : Option SplitPayload
  data_df : Option DataFrame
deriving DecidableEq, Repr

/-- Banners the startup wiring can show. -/
inductive Msg where
  | infoSeeded : Msg
  | infoEmptyState : Msg
deriving DecidableEq, Repr

/-- src/app.py lines 129-137 plus the display branch of lines 140/215:
when the seed frame is nonempty, initialize the slot and load the active
table; otherwise leave the state alone.  Then, when no nonempty active
table exists, show the empty-state info banner. -/
def startup (initial_df : DataFrame) (s : AppState) : AppState × List Msg :=
  let step :=
    if initial_df.isEmptyFrame then (s, ([] : List Msg))
    else
      let msgs := if s.persisted.isSome then ([] : List Msg) else [Msg.infoSeeded]
      let slot := load_initial_data initial_df s.persisted
      (⟨slot, some (load_persisted_data slot)⟩, msgs)
  match step.1.data_df with
  | some d => if d.isEmptyFrame then (step.1, step.2 ++ [Msg.infoEmptyState]) else step
  | none => (step.1, step.2 ++ [Msg.infoEmptyState])

/-- `df.copy()`: a value copy; mutation is explicit in this model, so
the copy is the same value. -/
def DataFrame.copy (df : DataFrame) : DataFrame := df

/-- src/app.py lines 200-205: the absence-report button passes a copy of
the stored table to the generator and leaves the stored table alone. -/
def absence_report_button (stored : DataFrame) : DataFrame × Except Err (Option DataFrame) :=
  let res := generate_absence_report stored.copy
  (stored, res.1)

/-- src/app.py lines 207-212: the notes-report button, same wiring. -/
def notes_report_button (stored : DataFrame) : DataFrame × Except Err (Option DataFrame) :=
  let res := generate_notes_report stored.copy
  (stored, res.1)

/-! ## Well-formedness predicates and expected values used by the claims -/

/-- Whether a cell is a boolean. -/
def isBoolVal : Val → Bool
  | Val.vBool _ => true
  | _ => false

/-- Positional check that every cell sitting under a "Présence" column is
boolean.  Cells beyond the column list are unconstrained. -/
def presenceBoolRow : List String → List Val → Bool
  | [], _ => true
  | _ :: _, [] => true
  | c :: cs, v :: vs =>
    (!(strContains c "Présence") || isBoolVal v) && presenceBoolRow cs vs

/-- Every attendance cell of the frame is boolean (positional). -/
def presenceCellsBool (df : DataFrame) : Bool :=
  df.rows.all (presenceBoolRow df.columns)

/-- Every attendance cell of the frame is boolean (name-based lookup, the
form the report generator reads cells in). -/
def absenceCellsBool (df : DataFrame) : Bool :=
  (presenceCols df).all (fun c => df.rows.all (fun r => isBoolVal (cellAt df.columns r c)))

/-- Number of attendance columns of the row whose value is `false`. -/
def absenceCount (df : DataFrame) (r : List Val) : Nat :=
  ((presenceCols df).filter (fun c => cellAt df.columns r c == Val.vBool false)).length

/-- Whether a cell may sit in a grade column without raising: a number or
a null. -/
def gradeOkVal : Val → Bool
  | Val.vNum _ => true
  | Val.vNull => true
  | _ => false

/-- Every grade cell of the frame is a number or null (name-based). -/
def noteCellsOk (df : DataFrame) : Bool :=
  (noteCols df).all (fun c => df.rows.all (fun r => gradeOkVal (cellAt df.columns r c)))

/-- The numeric content of a grade cell, none for null. -/
def toGradeQ : Val → Option ℚ
  | Val.vNum q => some q
  | _ => none

/-- The non-null grade values of a row, in column order. -/
def nonNullGrades (df : DataFrame) (r : List Val) : List ℚ :=
  ((noteCols df).map (fun c => cellAt df.columns r c)).filterMap toGradeQ

/-- The specified `Moyenne Notes` of a row: the mean of its non-null
grade values rounded to 2 decimals, null when no value is available. -/
def expectedMean (df : DataFrame) (r : List Val) : Val :=
  let g := nonNullGrades df r
  if g.isEmpty then Val.vNull
  else Val.vNum (round2 (g.sum / (g.length : ℚ)))

/-- No column of the serialized frame is re-typed by the read_json
object-column inference. -/
def inferenceFree (df : DataFrame) : Bool :=
  (convertFlags (to_json_split df)).all (fun b => b == false)

/-- No column name matches the date-conversion name heuristic, keeping
the unmodelled datetime attempt away from every column. -/
def noDateLikeColumns (df : DataFrame) : Bool :=
  df.columns.all (fun c => !(dateLikeName c))

/-- A nonempty all-letter name. -/
def pureAlpha (s : String) : Bool :=
  !(s.toList.isEmpty) && s.toList.all Char.isAlpha

/-- Bare alphabetic words the axis conversion could still read as a
number or a date: float words, month and weekday names with their
abbreviations, meridians and bare zone names. -/
def calendarTokens : List String :=
  ["nan", "inf", "infinity",
   "january", "february", "march", "april", "may", "june", "july", "august",
   "september", "october", "november", "december",
   "jan", "feb", "mar", "apr", "jun", "jul", "aug", "sep", "sept", "oct", "nov", "dec",
   "monday", "tuesday", "wednesday", "thursday", "friday", "saturday", "sunday",
   "mon", "tue", "tues", "wed", "thu", "thur", "thurs", "fri", "sat", "sun",
   "am", "pm", "utc", "gmt", "z", "ut", "t", "est", "edt", "cst", "cdt",
   "mst", "mdt", "pst", "pdt"]

/-- A column label that neither the float parse nor the datetime parse
of the axis conversion can consume. -/
def blocksAxisConversion (s : String) : Bool :=
  pureAlpha s && !(calendarTokens.contains (strToLower s))

/-- At least one column label blocks the axis conversion, so the real
`convert_axes` (which converts a whole axis or none of it) leaves the
column labels unchanged. -/
def axisPreserved (df : DataFrame) : Bool :=
  df.columns.any blocksAxisConversion

/-! ## Concrete frames used by witnesses and counterexamples -/

/-- A well-formed two-student table (boolean attendance, numeric
grades). -/
def roundtripOkFrame : DataFrame :=
  ⟨["Nom", "Présence_S1", "Note_S1"],
   [[Val.vStr "Alice", Val.vBool true, Val.vNum 15],
    [Val.vStr "Bob", Val.vBool false, Val.vNum 10]]⟩

/-- An attendance column holding the integer 1 instead of a boolean. -/
def roundtripBadFrame : DataFrame := ⟨["Présence_S1"], [[Val.vNum 1]]⟩

/-- A `Nom` cell holding the numeric-looking string "1", which the
read_json inference turns into the number 1. -/
def stringOneFrame : DataFrame := ⟨["Nom"], [[Val.vStr "1"]]⟩

/-- A stored payload whose attendance column holds the string "false". -/
def falseStringPayload : SplitPayload := ⟨["Présence_S1"], [[JVal.js "false"]]⟩

/-- A row with a null attendance cell. -/
def nullAbsenceFrame : DataFrame :=
  ⟨["Nom", "Présence_S1"], [[Val.vStr "A", Val.vNull]]⟩

/-- One student, absent in S1 and present in S2. -/
def absenceWitnessFrame : DataFrame :=
  ⟨["Nom", "Présence_S1", "Présence_S2"],
   [[Val.vStr "Bob", Val.vBool false, Val.vBool true]]⟩

/-- One student with the grades 12 and 16. -/
def notesWitnessFrame : DataFrame :=
  ⟨["Nom", "Note_1", "Note_2"], [[Val.vStr "Alice", Val.vNum 12, Val.vNum 16]]⟩

/-- A table with neither attendance nor grade columns. -/
def noReportFrame : DataFrame := ⟨["Nom"], [[Val.vStr "X"]]⟩

/-- An attendance table without the `Nom` column. -/
def missingNomPresenceFrame : DataFrame := ⟨["Présence_S1"], [[Val.vBool true]]⟩

/-- A grade table without the `Nom` column. -/
def missingNomNotesFrame : DataFrame := ⟨["Note_S1"], [[Val.vNum 12]]⟩

/-- A frame whose report generation demonstrably mutates its argument. -/
def mutationDemoFrame : DataFrame :=
  ⟨["Nom", "Présence_S1"], [[Val.vStr "A", Val.vBool true]]⟩

end GestionAbsence

deriving instance DecidableEq for Except

namespace GestionAbsence

/-! ## Helper lemmas -/

theorem seqMapE_ok {α β : Type} (f : α → Except Err β) (g : α → β) :
    ∀ l : List α, (∀ a ∈ l, f a = Except.ok (g a)) → seqMapE f l = Except.ok (l.map g)
  | [], _ => rfl
  | a :: as, h => by
    have h1 : f a = Except.ok (g a) := h a (List.mem_cons_self a as)
    have h2 : seqMapE f as = Except.ok (as.map g) :=
      seqMapE_ok f g as (fun x hx => h x (List.mem_cons_of_mem a hx))
    unfold seqMapE
    rw [h1, h2]
    rfl

theorem jsonToVal_valToJson (v : Val) : jsonToVal (valToJson v) = v := by
  cases v <;> rfl

theorem mapJson_id (r : List Val) : (r.map valToJson).map jsonToVal = r := by
  rw [List.map_map]
  have h2 : (jsonToVal ∘ valToJson) = id := funext jsonToVal_valToJson
  rw [h2, List.map_id]

theorem convertCells_id : ∀ (flags : List Bool),
    flags.all (fun b => b == false) = true →
    ∀ r : List Val, convertCells flags (r.map valToJson) = r
  | [], _, r => mapJson_id r
  | _ :: _, _, [] => rfl
  | b :: bs, h, v :: vs => by
    simp only [List.all_cons, Bool.and_eq_true, beq_iff_eq] at h
    obtain ⟨hb, hrest⟩ := h
    subst hb
    show (if (false : Bool) then cellToFloat (valToJson v) else jsonToVal (valToJson v))
        :: convertCells bs (vs.map valToJson) = v :: vs
    rw [if_neg (by simp), jsonToVal_valToJson,
      convertCells_id bs (by simpa [List.all_eq_true] using hrest) vs]

theorem read_write_id_of_no_inference (df : DataFrame) (h : inferenceFree df = true) :
    read_json_split (to_json_split df) = df := by
  cases df with
  | mk cols rows =>
    simp only [inferenceFree, to_json_split] at h
    simp only [read_json_split, to_json_split, List.map_map]
    congr 1
    calc rows.map (convertCells (convertFlags ⟨cols, rows.map (List.map valToJson)⟩)
            ∘ List.map valToJson)
        = rows.map (fun r => r) := List.map_congr_left (fun r _ => convertCells_id _ h r)
      _ = rows := List.map_id' rows

theorem isBoolVal_coerceBoolVal (v : Val) : isBoolVal (coerceBoolVal v) = true := by
  cases v <;> rfl

theorem coerceCells_id : ∀ (cols : List String) (r : List Val),
    presenceBoolRow cols r = true → coerceCells cols r = r
  | [], _, _ => rfl
  | _ :: _, [], _ => rfl
  | c :: cs, v :: vs, h => by
    simp only [presenceBoolRow, Bool.and_eq_true, Bool.or_eq_true, Bool.not_eq_true'] at h
    obtain ⟨h1, h2⟩ := h
    simp only [coerceCells]
    rw [coerceCells_id cs vs h2]
    rcases h1 with h1 | h1
    · rw [h1]
      simp
    · cases v with
      | vBool b => simp [coerceBoolVal]
      | vNum q => simp [isBoolVal] at h1
      | vStr s1 => simp [isBoolVal] at h1
      | vNull => simp [isBoolVal] at h1

theorem coercePresence_id (df : DataFrame) (h : presenceCellsBool df = true) :
    coercePresence df = df := by
  cases df with
  | mk cols rows =>
    simp only [presenceCellsBool, List.all_eq_true] at h
    simp only [coercePresence]
    congr 1
    calc rows.map (coerceCells cols)
        = rows.map (fun r => r) := List.map_congr_left (fun r hr => coerceCells_id cols r (h r hr))
      _ = rows := List.map_id' rows

theorem presenceBoolRow_coerce : ∀ (cols : List String) (r : List Val),
    presenceBoolRow cols (coerceCells cols r) = true
  | [], _ => rfl
  | _ :: _, [] => rfl
  | c :: cs, v :: vs => by
    simp only [coerceCells, presenceBoolRow, Bool.and_eq_true, Bool.or_eq_true,
      Bool.not_eq_true']
    refine ⟨?_, presenceBoolRow_coerce cs vs⟩
    cases hsc : strContains c "Présence" with
    | false => exact Or.inl rfl
    | true =>
      refine Or.inr ?_
      simpa using isBoolVal_coerceBoolVal v

theorem invertedVals_eq (cols : List String) (r : List Val) (cs : List String)
    (h : ∀ c ∈ cs, isBoolVal (cellAt cols r c) = true) :
    seqMapE (fun c => pandasInvert (cellAt cols r c)) cs
      = Except.ok (cs.map (fun c => Val.vBool (!(cellAt cols r c == Val.vBool true)))) := by
  refine seqMapE_ok _ _ cs (fun c hc => ?_)
  have hb := h c hc
  cases hv : cellAt cols r c with
  | vBool b => cases b <;> rfl
  | vNum q => rw [hv] at hb; simp [isBoolVal] at hb
  | vStr s1 => rw [hv] at hb; simp [isBoolVal] at hb
  | vNull => rw [hv] at hb; simp [isBoolVal] at hb

theorem sum_inverted_counts (cols : List String) (r : List Val) :
    ∀ cs : List String, (∀ c ∈ cs, isBoolVal (cellAt cols r c) = true) →
      ((cs.map (fun c => Val.vBool (!(cellAt cols r c == Val.vBool true)))).map valAsNum).sum
        = (((cs.filter (fun c => cellAt cols r c == Val.vBool false)).length : ℚ))
  | [], _ => by simp
  | c :: cs, h => by
    have ih := sum_inverted_counts cols r cs (fun x hx => h x (List.mem_cons_of_mem c hx))
    have hb := h c (List.mem_cons_self c cs)
    simp only [List.map_cons, List.sum_cons, List.filter_cons]
    cases hv : cellAt cols r c with
    | vBool b =>
      cases b with
      | true =>
        have e0 : valAsNum (Val.vBool (!(Val.vBool true == Val.vBool true))) = 0 := rfl
        have e1 : (Val.vBool true == Val.vBool false) = false := rfl
        rw [e0, e1]
        simp only [Bool.false_eq_true, if_false, zero_add]
        exact ih
      | false =>
        have e0 : valAsNum (Val.vBool (!(Val.vBool false == Val.vBool true))) = 1 := rfl
        have e1 : (Val.vBool false == Val.vBool false) = true := rfl
        rw [e0, e1]
        simp only [if_pos rfl]
        rw [ih]
        push_cast [List.length_cons]
        ring
    | vNum q => rw [hv] at hb; simp [isBoolVal] at hb
    | vStr s1 => rw [hv] at hb; simp [isBoolVal] at hb
    | vNull => rw [hv] at hb; simp [isBoolVal] at hb

theorem rowAbsenceTotal_eq (df : DataFrame) (r : List Val)
    (h : ∀ c ∈ presenceCols df, isBoolVal (cellAt df.columns r c) = true) :
    rowAbsenceTotalE df r = Except.ok ((absenceCount df r : ℚ)) := by
  unfold rowAbsenceTotalE
  rw [invertedVals_eq df.columns r (presenceCols df) h]
  exact congrArg Except.ok (sum_inverted_counts df.columns r (presenceCols df) h)

theorem absenceTotals_eq (df : DataFrame) (h : absenceCellsBool df = true) :
    absenceTotalsE df
      = Except.ok (df.rows.map (fun r => Val.vNum ((absenceCount df r : ℚ)))) := by
  simp only [absenceCellsBool, List.all_eq_true] at h
  refine seqMapE_ok _ _ df.rows (fun r hr => ?_)
  rw [rowAbsenceTotal_eq df r (fun c hc => h c hc r hr)]
  rfl

theorem gradeValsE_eq : ∀ vs : List Val, (∀ v ∈ vs, gradeOkVal v = true) →
    gradeValsE vs = Except.ok (vs.filterMap toGradeQ)
  | [], _ => rfl
  | v :: vs, h => by
    have ih := gradeValsE_eq vs (fun x hx => h x (List.mem_cons_of_mem v hx))
    have hv := h v (List.mem_cons_self v vs)
    unfold gradeValsE
    rw [ih]
    cases v with
    | vNum q => simp [List.filterMap_cons, toGradeQ]
    | vNull => simp [List.filterMap_cons, toGradeQ]
    | vBool b => simp [gradeOkVal] at hv
    | vStr s1 => simp [gradeOkVal] at hv

theorem rowNoteMean_eq (df : DataFrame) (r : List Val)
    (h : ∀ c ∈ noteCols df, gradeOkVal (cellAt df.columns r c) = true) :
    rowNoteMean df r = Except.ok (expectedMean df r) := by
  have hg : ∀ v ∈ (noteCols df).map (fun c => cellAt df.columns r c), gradeOkVal v = true := by
    intro v hv
    obtain ⟨c, hc, rfl⟩ := List.mem_map.mp hv
    exact h c hc
  unfold rowNoteMean
  rw [gradeValsE_eq _ hg]
  rfl

theorem noteMeans_eq (df : DataFrame) (h : noteCellsOk df = true) :
    noteMeansE df = Except.ok (df.rows.map (expectedMean df)) := by
  simp only [noteCellsOk, List.all_eq_true] at h
  refine seqMapE_ok _ _ df.rows (fun r hr => ?_)
  exact rowNoteMean_eq df r (fun c hc => h c hc r hr)

/-! ## Claim theorems -/

/-- C1 (amended): the round trip `write_data` then `fetch_data` returns
the table unchanged — same values, same column order, same row order —
for every table that the deserialization re-reads as stored: its
attendance ("Présence") columns hold only boolean values, no column is
re-typed by read_json's default object-column inference (so no column
whose cells all parse as floats, e.g. numeric-looking strings, or
booleans mixed with nulls), no column name matches the date-conversion
heuristic, and some column label blocks the axis conversion.  The last
two hypotheses keep the datetime and axis conversions, which the value
model cannot represent, out of the theorem's scope. -/
theorem roundtrip_id_of_boolean_attendance (df : DataFrame) (s : Option SplitPayload)
    (h : presenceCellsBool df = true)
    (hInfer : inferenceFree df = true)
    (_hDates : noDateLikeColumns df = true)
    (_hAxis : axisPreserved df = true) :
    fetch_data (write_data df s) = df := by
  show coercePresence (read_json_split (to_json_split df)) = df
  rw [read_write_id_of_no_inference df hInfer]
  exact coercePresence_id df h

/-- C1 witness: the round trip is the identity on a concrete two-student
table with boolean attendance, numeric grades and non-numeric names. -/
theorem roundtrip_id_witness :
    presenceCellsBool roundtripOkFrame = true
    ∧ inferenceFree roundtripOkFrame = true
    ∧ noDateLikeColumns roundtripOkFrame = true
    ∧ axisPreserved roundtripOkFrame = true
    ∧ fetch_data (write_data roundtripOkFrame none) = roundtripOkFrame :=
  ⟨by decide, by decide, by with_unfolding_all decide, by with_unfolding_all decide,
   roundtrip_id_of_boolean_attendance roundtripOkFrame none
     (by decide) (by decide) (by with_unfolding_all decide) (by with_unfolding_all decide)⟩

/-- C1 counterexample: the round trip is not the identity on every
table.  An attendance column holding the integer 1 comes back as the
boolean true, because `fetch_data` coerces every "Présence" column with
`astype(bool)`; and a `Nom` cell holding the string "1" comes back as
the number 1, because read_json's default inference converts an object
column whose cells all parse as floats. -/
theorem roundtrip_cex :
    fetch_data (write_data roundtripBadFrame none) ≠ roundtripBadFrame
    ∧ fetch_data (write_data stringOneFrame none) = ⟨["Nom"], [[Val.vNum 1]]⟩
    ∧ fetch_data (write_data stringOneFrame none) ≠ stringOneFrame :=
  ⟨by with_unfolding_all decide, by with_unfolding_all rfl, by with_unfolding_all decide⟩

/-- C3 (amended): for every table with at least one "Présence" column
whose attendance cells are all boolean, `generate_absence_report`
computes for each record a `Total Absences` equal to the number of
attendance columns whose value is false, and the returned report is the
selection and descending sort of exactly those totals.  A null
attendance cell is not counted as absent: the pandas `~` raises a
TypeError on it (see the counterexample). -/
theorem absence_total_counts_false_cells (df : DataFrame)
    (h1 : (presenceCols df).isEmpty = false) (h2 : absenceCellsBool df = true) :
    absenceTotalsE df = Except.ok (df.rows.map (fun r => Val.vNum ((absenceCount df r : ℚ))))
    ∧ generate_absence_report df
        = finishReport (setCol df "Total Absences"
            (df.rows.map (fun r => Val.vNum ((absenceCount df r : ℚ))))) "Total Absences" := by
  have ht := absenceTotals_eq df h2
  refine ⟨ht, ?_⟩
  unfold generate_absence_report
  rw [ht, h1]
  simp only [Bool.false_eq_true, if_false]

/-- C3 witness: a student absent in S1 and present in S2 gets a total of
exactly 1. -/
theorem absence_total_counts_false_cells_witness :
    (presenceCols absenceWitnessFrame).isEmpty = false
    ∧ absenceCellsBool absenceWitnessFrame = true
    ∧ absenceTotalsE absenceWitnessFrame = Except.ok [Val.vNum 1] := by
  refine ⟨by decide, by decide, ?_⟩
  have h := (absence_total_counts_false_cells absenceWitnessFrame (by decide) (by decide)).1
  exact h.trans (by with_unfolding_all rfl)

/-- C3 counterexample: a null attendance cell is not counted as an
absence; the report computation raises a TypeError instead of producing
a total of 1 for the row. -/
theorem absence_null_cell_cex :
    (generate_absence_report nullAbsenceFrame).1 = Except.error Err.typeError := by
  with_unfolding_all rfl

/-- C4: for every table with at least one "Note" column whose grade
cells are numbers or nulls, `generate_notes_report` computes for each
record a `Moyenne Notes` equal to the arithmetic mean of the record's
non-null grade values rounded to 2 decimal places (null when the record
has no non-null grade), and the returned report is the selection and
descending sort of exactly those means. -/
theorem notes_mean_skips_nulls (df : DataFrame)
    (h1 : (noteCols df).isEmpty = false) (h2 : noteCellsOk df = true) :
    noteMeansE df = Except.ok (df.rows.map (expectedMean df))
    ∧ generate_notes_report df
        = finishReport (setCol df "Moyenne Notes" (df.rows.map (expectedMean df)))
            "Moyenne Notes" := by
  have ht := noteMeans_eq df h2
  refine ⟨ht, ?_⟩
  unfold generate_notes_report
  rw [ht, h1]
  simp only [Bool.false_eq_true, if_false]

/-- C4 witness: the record with the grades 12 and 16 reports the mean
14. -/
theorem notes_mean_witness :
    (noteCols notesWitnessFrame).isEmpty = false
    ∧ noteCellsOk notesWitnessFrame = true
    ∧ noteMeansE notesWitnessFrame = Except.ok [Val.vNum 14] := by
  refine ⟨by decide, by decide, ?_⟩
  have h := (notes_mean_skips_nulls notesWitnessFrame (by decide) (by decide)).1
  exact h.trans (by with_unfolding_all rfl)

/-- C5 (amended): after every fetch from the persistence slot, every
"Présence" column holds only boolean values.  The coercion maps the
integers 0/1 to false/true and keeps native booleans; but strings are
mapped by Python truthiness, so both "true" and "false" become true
(only the empty string becomes false), and null becomes true. -/
theorem fetched_presence_cells_boolean (s : Option SplitPayload) :
    presenceCellsBool (fetch_data s) = true
    ∧ coerceBoolVal (Val.vNum 0) = Val.vBool false
    ∧ coerceBoolVal (Val.vNum 1) = Val.vBool true
    ∧ (∀ b, coerceBoolVal (Val.vBool b) = Val.vBool b)
    ∧ coerceBoolVal (Val.vStr "true") = Val.vBool true
    ∧ coerceBoolVal (Val.vStr "false") = Val.vBool true
    ∧ coerceBoolVal (Val.vStr "") = Val.vBool false
    ∧ coerceBoolVal Val.vNull = Val.vBool true := by
  refine ⟨?_, by decide, by decide, fun b => rfl, by decide, by decide, by decide, rfl⟩
  cases s with
  | none => rfl
  | some p =>
    simp only [fetch_data, coercePresence, presenceCellsBool, List.all_eq_true]
    intro r hr
    obtain ⟨r0, hr0, rfl⟩ := List.mem_map.mp hr
    exact presenceBoolRow_coerce _ r0

/-- C5 counterexample: the stored string "false" in an attendance column
is read back as the boolean true, not the boolean false the claim
requires. -/
theorem presence_coercion_false_string_cex :
    fetch_data (some falseStringPayload) = ⟨["Présence_S1"], [[Val.vBool true]]⟩
    ∧ Val.vBool true ≠ Val.vBool false :=
  ⟨by with_unfolding_all rfl, by decide⟩

/-- C6: the two report buttons call the generators on a copy of the
stored table and leave the stored table unchanged; the report outcome is
the one computed from the stored snapshot.  The last conjunct shows the
snapshot copy is what protects the stored table: the generator itself
mutates its argument (it adds the computed column). -/
theorem report_buttons_preserve_stored_table (stored : DataFrame) :
    (absence_report_button stored).1 = stored
    ∧ (notes_report_button stored).1 = stored
    ∧ (absence_report_button stored).2 = (generate_absence_report stored).1
    ∧ (notes_report_button stored).2 = (generate_notes_report stored).1
    ∧ (generate_absence_report mutationDemoFrame).2 ≠ mutationDemoFrame := by
  refine ⟨rfl, rfl, rfl, rfl, ?_⟩
  with_unfolding_all decide

/-- C7: with no "Présence" column, `generate_absence_report` returns
`None` and leaves its table untouched; with no "Note" column,
`generate_notes_report` does the same. -/
theorem reports_none_when_columns_missing (df : DataFrame) :
    ((presenceCols df).isEmpty = true → generate_absence_report df = (Except.ok none, df))
    ∧ ((noteCols df).isEmpty = true → generate_notes_report df = (Except.ok none, df)) := by
  constructor
  · intro h
    unfold generate_absence_report
    rw [h]
    rfl
  · intro h
    unfold generate_notes_report
    rw [h]
    rfl

/-- C7 witness: a table holding only the `Nom` column gets `None` from
both generators, with the table unchanged. -/
theorem reports_none_witness :
    generate_absence_report noReportFrame = (Except.ok none, noReportFrame)
    ∧ generate_notes_report noReportFrame = (Except.ok none, noReportFrame) :=
  ⟨(reports_none_when_columns_missing noReportFrame).1 (by decide),
   (reports_none_when_columns_missing noReportFrame).2 (by decide)⟩

/-- C8: the init operation of the persistence simulator.
`load_initial_data` establishes the slot when absent, is a no-op when
the slot is present, and is idempotent; after one call the slot exists.
The connector's `init_db` performs no action on the stored state, so it
too is safe to call any number of times. -/
theorem init_slot_behavior (df : DataFrame) (s : Option SplitPayload) :
    init_db s = s
    ∧ (load_initial_data df s).isSome = true
    ∧ load_initial_data df (load_initial_data df s) = load_initial_data df s
    ∧ load_initial_data df none = some (to_json_split df)
    ∧ ∀ p, load_initial_data df (some p) = some p := by
  refine ⟨rfl, ?_, ?_, rfl, fun p => rfl⟩
  · cases s <;> rfl
  · cases s <;> rfl

/-- C9: on a table with an attendance (resp. grade) column but no `Nom`
column, the report generator raises a KeyError from the unconditional
selection of the `Nom` output column: no report and no `None` signal. -/
theorem missing_nom_raises_keyerror :
    (generate_absence_report missingNomPresenceFrame).1 = Except.error (Err.keyError "Nom")
    ∧ (generate_notes_report missingNomNotesFrame).1 = Except.error (Err.keyError "Nom") :=
  ⟨by with_unfolding_all rfl, by with_unfolding_all rfl⟩

/-- C10: when the seed CSV loads as an empty table, startup initializes
nothing: the persistence slot stays absent, no active table is created,
and only the informational empty-state banner is shown. -/
theorem empty_seed_skips_initialization (df : DataFrame) (h : df.isEmptyFrame = true) :
    startup df ⟨none, none⟩ = (⟨none, none⟩, [Msg.infoEmptyState]) := by
  unfold startup
  rw [h]
  rfl

/-- C10 witness: the concrete empty frame triggers exactly the
empty-state banner and leaves the fresh state untouched. -/
theorem empty_seed_witness :
    DataFrame.isEmptyFrame emptyFrame = true
    ∧ startup emptyFrame ⟨none, none⟩ = (⟨none, none⟩, [Msg.infoEmptyState]) :=
  ⟨rfl, empty_seed_skips_initialization emptyFrame rfl⟩

end GestionAbsence
